import Mathlib

/-
Verification development for the binja-lua scripting provider.

This file shallowly embeds the scripting execution engine of
src/luascriptingprovider.cpp and src/bindings/common.h:

  * the Selection value type (common.h, BinjaLua::Selection),
  * the defensive stringifier SafeToString,
  * the context cache (HasContextChanged / UpdateContextCache) and the
    magic-variable synchronizer (UpdateMagicVariables /
    UpdateMagicVariableValues),
  * the script evaluator (ExecuteScriptInput /
    ExecuteScriptInputFromFilename) and session initialization
    (InitializeLuaState),
  * the script-visible utility get_selected_data.

The embedded Lua interpreter and the Binary Ninja host are modelled as
oracles (plain Lean functions supplied as parameters): a dostring oracle
returns the protected-mode outcome of running a chunk (Lua errors are
returned as status values, exactly as luaL_dostring reports them), and a
host oracle answers the view queries (address-to-offset translation,
sections, symbol, comment, IL retrieval), each of which may fail with a
C++ exception, modelled as Except Unit.  Machine integers (uint64_t) are
modelled as Nat with explicit wrap-around where the source performs
unsigned subtraction.
-/

namespace BinjaLua

/-- Unsigned 64-bit modulus. -/
def u64 : Nat := 2 ^ 64

/-- Unsigned 64-bit subtraction a - b, for operands below 2^64: wraps
modulo 2^64 exactly as C++ uint64_t subtraction does. -/
def u64sub (a b : Nat) : Nat := (u64 + a - b) % u64

/-- Selection value type from src/bindings/common.h: a start/end pair of
uint64_t.  The source field `end` is a Lean keyword and is rendered here
as `stop`. -/
structure Selection where
  start : Nat
  stop : Nat
deriving DecidableEq, Repr

/-- Selection::length from common.h line 76:
`end > start ? end - start : 0`, with the subtraction performed in
uint64_t arithmetic. -/
def Selection.length (s : Selection) : Nat :=
  if s.stop > s.start then u64sub s.stop s.start else 0

/-- Result of invoking the registered __tostring hook of a userdata under
lua_pcall followed by lua_tolstring, as SafeToString does
(luascriptingprovider.cpp lines 386-396): the pcall may raise
(hookError), or succeed with a value lua_tolstring cannot convert
(nonStringResult), or succeed with a convertible value (stringResult). -/
inductive HookResult where
  | hookError
  | nonStringResult
  | stringResult (s : String)
deriving DecidableEq, Repr

/-- Runtime kinds of Lua values as dispatched on by the engine.  Numbers
carry either a Lua integer or the formatted representation of a float
(std::to_string of the double); userdata carries the outcome of its
optional __tostring hook; `other` carries the luaL_typename string of
any remaining kind (thread, light userdata). -/
inductive LuaValue where
  | nil
  | boolean (b : Bool)
  | intVal (i : Int)
  | floatVal (r : String)
  | strVal (s : String)
  | tableVal (id : Nat)
  | userdata (hook : Option HookResult)
  | funcVal (id : Nat)
  | other (tn : String)
deriving DecidableEq, Repr

/-- SafeToString from luascriptingprovider.cpp lines 356-412: a total,
never-throwing stringifier dispatching on lua_type.  The defensive
branches that guard against an unusable stack or a C++ exception during
conversion (returning a stack-error or conversion-error marker) have no
counterpart here because the embedding has no resource failures; every
branch below is the translation of the corresponding case label.  For
userdata, luaL_typename yields "userdata". -/
def safeToString : LuaValue → String
  | .strVal s => s
  | .intVal i => toString i
  | .floatVal r => r
  | .boolean b => if b then "true" else "false"
  | .nil => "nil"
  | .userdata hook =>
    match hook with
    | some (.stringResult s) => s
    | some .nonStringResult => "<tostring failed>"
    | some .hookError => "<userdata>"
    | none => "<userdata>"
  | .tableVal _ => "<table>"
  | .funcVal _ => "<function>"
  | .other tn => "<" ++ tn ++ ">"

/-- lua_tolstring without metamethod dispatch, as used on the error value
in ExecuteScriptInputFromFilename (line 300): converts strings and
numbers, returns NULL (none) otherwise. -/
def rawTolstring : LuaValue → Option String
  | .strVal s => some s
  | .intVal i => some (toString i)
  | .floatVal r => some r
  | _ => none

/-- Context snapshot: the six fields compared by HasContextChanged
(luascriptingprovider.cpp lines 632-641).  Object handles (BinaryView,
Function, BasicBlock) are compared by identity in the source; they are
modelled as Option Nat, with none for a null handle and the Nat as the
handle identity.  Addresses and selection bounds are uint64_t values. -/
structure Snapshot where
  view : Option Nat
  func : Option Nat
  block : Option Nat
  address : Nat
  selBegin : Nat
  selEnd : Nat
deriving DecidableEq, Repr

/-- Value shapes the synchronizer binds to the magic-variable globals in
UpdateMagicVariableValues: sol::nil, host-object references, HexAddress
wrappers, the Selection pair, section and symbol tables, plain strings,
and the three IL function handles. -/
inductive Binding where
  | nilB
  | funcRef (h : Nat)
  | viewRef (h : Nat)
  | blockRef (h : Nat)
  | hexaddr (v : Nat)
  | selectionB (b e : Nat)
  | sectionList (hs : List Nat)
  | symbolRef (h : Nat)
  | symbolList (hs : List Nat)
  | strB (s : String)
  | llilRef (h : Nat)
  | mlilRef (h : Nat)
  | hlilRef (h : Nat)
deriving DecidableEq, Repr

/-- The magic-variable globals set by UpdateMagicVariableValues
(luascriptingprovider.cpp lines 415-526), one field per global name. -/
structure MagicEnv where
  current_function : Binding
  bv : Binding
  current_view : Binding
  current_basic_block : Binding
  current_address : Binding
  here : Binding
  current_selection : Binding
  current_raw_offset : Binding
  current_sections : Binding
  current_symbol : Binding
  current_symbols : Binding
  current_comment : Binding
  current_llil : Binding
  current_mlil : Binding
  current_hlil : Binding
deriving DecidableEq, Repr

/-- Host (Binary Ninja view / function) query oracle.  Each query is a
C++ call that can throw (the reason UpdateMagicVariableValues is wrapped
in try/catch), modelled as Except Unit.  dataOffsetForAddress returns
some offset when GetDataOffsetForAddress reports a mapping, none when it
returns false.  readBuffer models BinaryView::ReadBuffer: given a view
handle, a start address and a requested length, it returns the bytes
actually read (possibly fewer than requested). -/
structure HostOracle where
  dataOffsetForAddress : Nat → Nat → Except Unit (Option Nat)
  sectionsAt : Nat → Nat → Except Unit (List Nat)
  symbolAt : Nat → Nat → Except Unit (Option Nat)
  commentAt : Nat → Nat → Except Unit String
  lowLevelIL : Nat → Except Unit Nat
  mediumLevelIL : Nat → Except Unit Nat
  highLevelIL : Nat → Except Unit Nat
  readBuffer : Nat → Nat → Nat → List Nat

/-- One fallible step of the synchronizer: run a host query; on success
continue with the updated environment, on a thrown exception abort with
the environment as updated so far (the single try/catch of
UpdateMagicVariableValues catches at function scope, so the partially
updated globals are what remains). -/
def tryField {α : Type} (env : MagicEnv) (q : Except Unit α)
    (k : α → MagicEnv) : Except MagicEnv MagicEnv :=
  match q with
  | .ok a => .ok (k a)
  | .error _ => .error env

/-- The infallible assignments of UpdateMagicVariableValues, in source
order (luascriptingprovider.cpp lines 427-454): function, view (two
names), block, address (two names), selection. -/
def magicPure (c : Snapshot) (env0 : MagicEnv) : MagicEnv :=
  { env0 with
    current_function := match c.func with | some h => .funcRef h | none => .nilB
    bv := match c.view with | some h => .viewRef h | none => .nilB
    current_view := match c.view with | some h => .viewRef h | none => .nilB
    current_basic_block := match c.block with | some h => .blockRef h | none => .nilB
    current_address := .hexaddr c.address
    here := .hexaddr c.address
    current_selection := .selectionB c.selBegin c.selEnd }

/-- Raw-offset derivation (lines 456-467): with a view, ask for the
address-to-offset translation (this call can throw); bind HexAddress of
the offset on a mapping, HexAddress(0) otherwise; with no view,
HexAddress(0). -/
def magicStepOff (ho : HostOracle) (c : Snapshot) (env : MagicEnv) :
    Except MagicEnv MagicEnv :=
  match c.view with
  | some v =>
    tryField env (ho.dataOffsetForAddress v c.address) fun r =>
      { env with current_raw_offset :=
          match r with | some off => .hexaddr off | none => .hexaddr 0 }
  | none => .ok { env with current_raw_offset := .hexaddr 0 }

/-- Section-list derivation (lines 469-480). -/
def magicStepSec (ho : HostOracle) (c : Snapshot) (env : MagicEnv) :
    Except MagicEnv MagicEnv :=
  match c.view with
  | some v =>
    tryField env (ho.sectionsAt v c.address) fun ss =>
      { env with current_sections := .sectionList ss }
  | none => .ok { env with current_sections := .sectionList [] }

/-- Symbol derivation (lines 482-498): one scalar plus the list form,
both absent when no symbol is found or there is no view. -/
def magicStepSym (ho : HostOracle) (c : Snapshot) (env : MagicEnv) :
    Except MagicEnv MagicEnv :=
  match c.view with
  | some v =>
    tryField env (ho.symbolAt v c.address) fun r =>
      match r with
      | some sym =>
        { env with current_symbol := .symbolRef sym,
                   current_symbols := .symbolList [sym] }
      | none =>
        { env with current_symbol := .nilB,
                   current_symbols := .symbolList [] }
  | none =>
    .ok { env with current_symbol := .nilB,
                   current_symbols := .symbolList [] }

/-- Comment derivation (lines 500-507). -/
def magicStepCom (ho : HostOracle) (c : Snapshot) (env : MagicEnv) :
    Except MagicEnv MagicEnv :=
  match c.view with
  | some v =>
    tryField env (ho.commentAt v c.address) fun s =>
      { env with current_comment := .strB s }
  | none => .ok { env with current_comment := .strB "" }

/-- IL derivation (lines 509-518): three successive queries on the
current function, or three nil assignments without one. -/
def magicStepIL (ho : HostOracle) (c : Snapshot) (env : MagicEnv) :
    Except MagicEnv MagicEnv :=
  match c.func with
  | none =>
    .ok { env with current_llil := .nilB, current_mlil := .nilB,
                   current_hlil := .nilB }
  | some f =>
    match tryField env (ho.lowLevelIL f) fun h =>
        { env with current_llil := .llilRef h } with
    | .error e => .error e
    | .ok env6 =>
      match tryField env6 (ho.mediumLevelIL f) fun h =>
          { env6 with current_mlil := .mlilRef h } with
      | .error e => .error e
      | .ok env7 =>
        tryField env7 (ho.highLevelIL f) fun h =>
          { env7 with current_hlil := .hlilRef h }

/-- Remainder of the try block from the IL phase on; an error is the
environment the function-scope catch leaves behind. -/
def runIL (ho : HostOracle) (c : Snapshot) (env : MagicEnv) : MagicEnv :=
  match magicStepIL ho c env with
  | .ok e => e
  | .error e => e

/-- Remainder of the try block from the comment phase on. -/
def runCom (ho : HostOracle) (c : Snapshot) (env : MagicEnv) : MagicEnv :=
  match magicStepCom ho c env with
  | .error e => e
  | .ok e => runIL ho c e

/-- Remainder of the try block from the symbol phase on. -/
def runSym (ho : HostOracle) (c : Snapshot) (env : MagicEnv) : MagicEnv :=
  match magicStepSym ho c env with
  | .error e => e
  | .ok e => runCom ho c e

/-- Remainder of the try block from the sections phase on. -/
def runSec (ho : HostOracle) (c : Snapshot) (env : MagicEnv) : MagicEnv :=
  match magicStepSec ho c env with
  | .error e => e
  | .ok e => runSym ho c e

/-- UpdateMagicVariableValues (luascriptingprovider.cpp lines 415-526):
the assignment phases run in source order inside one function-scope
try/catch; a thrown exception is only logged, so the result is the
environment as assigned up to the point of failure. -/
def updateMagicVariableValues (ho : HostOracle) (c : Snapshot)
    (env : MagicEnv) : MagicEnv :=
  match magicStepOff ho c (magicPure c env) with
  | .error e => e
  | .ok e => runSec ho c e

/-- m_inputReadyState values (BNScriptingProviderInputReadyState as used
by the provider). -/
inductive ReadyState where
  | readyForScriptProgramInput
  | notReadyForInput
deriving DecidableEq, Repr

/-- Events a running script can emit through the overridden print /
error / warn globals (routed to instance Output / Error / Warning). -/
inductive ScriptEvent where
  | outputEv (s : String)
  | errorEv (s : String)
  | warnEv (s : String)
deriving DecidableEq, Repr

/-- Observable events of the session: the script-visible channels plus
the InputReadyStateChanged notification sent to the host. -/
inductive Event where
  | outputEv (s : String)
  | errorEv (s : String)
  | warnEv (s : String)
  | inputReadyStateChangedEv (r : ReadyState)
deriving DecidableEq, Repr

/-- Injection of script-emitted events into session events.  Scripts
cannot emit readiness notifications. -/
def ScriptEvent.toEvent : ScriptEvent → Event
  | .outputEv s => .outputEv s
  | .errorEv s => .errorEv s
  | .warnEv s => .warnEv s

/-- Outcome of one luaL_dostring / luaL_dofile call: the events the chunk
emitted while running, and either the value stack left by the chunk (head
of the list is the top of the stack, that is, the last return value) or
the error value, as reported by protected-mode execution. -/
structure DoStringRes where
  events : List ScriptEvent
  outcome : Except LuaValue (List LuaValue)

/-- Lua interpreter oracle for the evaluator: dostring / dofile results
per chunk text, whether the global dump is currently bound to a function,
the outcome of lua_pcall of dump on a value followed by lua_tolstring of
its result (events emitted by dump, then: error, or the converted string,
or none when the dump result converts to neither string nor number), and
luaL_tolstring (which honours __tostring metamethods; none models a NULL
return). -/
structure LuaOracle where
  dostring : String → DoStringRes
  dofile : String → DoStringRes
  dumpIsFunction : Bool
  dumpCall : LuaValue → List ScriptEvent × Except Unit (Option String)
  tolstring : LuaValue → Option String

/-- The session state of LuaScriptingInstance: whether m_luaState is
non-null, the magic-variable globals, the live context (m_currentBinaryView,
m_currentFunction, m_currentBasicBlock, m_currentAddress, m_selectionBegin,
m_selectionEnd), the cached context (m_lastCached*), and m_inputReadyState. -/
structure InstanceState where
  luaState : Bool
  env : MagicEnv
  live : Snapshot
  cached : Snapshot
  inputReadyState : ReadyState
deriving DecidableEq, Repr

/-- HasContextChanged (luascriptingprovider.cpp lines 632-641): disjunction
of the six field comparisons between live and cached context. -/
def hasContextChanged (s : InstanceState) : Bool :=
  s.live.view != s.cached.view ||
  s.live.func != s.cached.func ||
  s.live.block != s.cached.block ||
  s.live.address != s.cached.address ||
  s.live.selBegin != s.cached.selBegin ||
  s.live.selEnd != s.cached.selEnd

/-- UpdateContextCache (lines 643-652): copy all six live fields into the
cache. -/
def updateContextCache (s : InstanceState) : InstanceState :=
  { s with cached := s.live }

/-- SetCurrentBinaryView (line 320). -/
def setCurrentBinaryView (v : Option Nat) (s : InstanceState) : InstanceState :=
  { s with live := { s.live with view := v } }

/-- SetCurrentFunction (line 325). -/
def setCurrentFunction (f : Option Nat) (s : InstanceState) : InstanceState :=
  { s with live := { s.live with func := f } }

/-- SetCurrentBasicBlock (line 330). -/
def setCurrentBasicBlock (b : Option Nat) (s : InstanceState) : InstanceState :=
  { s with live := { s.live with block := b } }

/-- SetCurrentAddress (line 335). -/
def setCurrentAddress (a : Nat) (s : InstanceState) : InstanceState :=
  { s with live := { s.live with address := a } }

/-- SetCurrentSelection (line 340). -/
def setCurrentSelection (b e : Nat) (s : InstanceState) : InstanceState :=
  { s with live := { s.live with selBegin := b, selEnd := e } }

/-- UpdateMagicVariables (lines 111-124): with a Lua state present, rebind
the magic variables and commit the cache only when the context changed;
otherwise do nothing. -/
def updateMagicVariables (ho : HostOracle) (s : InstanceState) : InstanceState :=
  if !s.luaState then s
  else if hasContextChanged s then
    updateContextCache { s with env := updateMagicVariableValues ho s.live s.env }
  else s

/-- BNScriptingProviderExecuteResult values used by the evaluator. -/
inductive ExecStatus where
  | successfulScriptExecution
  | invalidScriptInput
deriving DecidableEq, Repr

/-- Result of one ExecuteScriptInput / ExecuteScriptInputFromFilename
call: the returned status, the full ordered event trace of the call, and
the session state afterwards. -/
structure ExecOutcome where
  result : ExecStatus
  events : List Event
  state : InstanceState
deriving Repr

/-- Output events produced by the expression-success branch of
ExecuteScriptInput (lines 216-247): nothing when the stack is empty or
its top is nil; for a table on top, pcall of the dump global when it is a
function (emitting the converted result when available, nothing when dump
raises or its result does not convert), or a literal table placeholder
when dump is not a function; otherwise luaL_tolstring of the top value. -/
def exprOutputEvents (o : LuaOracle) (stack : List LuaValue) : List Event :=
  match stack.head? with
  | none => []
  | some .nil => []
  | some (.tableVal id) =>
    if o.dumpIsFunction then
      match o.dumpCall (.tableVal id) with
      | (evs, .ok (some str)) => evs.map ScriptEvent.toEvent ++ [.outputEv (str ++ "\n")]
      | (evs, .ok none) => evs.map ScriptEvent.toEvent
      | (evs, .error _) => evs.map ScriptEvent.toEvent
    else [.outputEv "<table>\n"]
  | some v =>
    match o.tolstring v with
    | some str => [.outputEv (str ++ "\n")]
    | none => []

/-- ExecuteScriptInput (luascriptingprovider.cpp lines 193-274).  With no
Lua state: error and InvalidScriptInput.  Otherwise: set readiness to
not-ready and notify, refresh the magic variables, try the input with a
return prefix as an expression; on success print the result per
exprOutputEvents; on failure discard the expression error and run the
input verbatim as a statement sequence, reporting its safe-stringified
error (when non-empty) on failure; finally restore readiness and notify. -/
def executeScriptInput (o : LuaOracle) (ho : HostOracle) (s : InstanceState)
    (input : String) : ExecOutcome :=
  if !s.luaState then
    { result := .invalidScriptInput
      events := [.errorEv "Lua state not initialized"]
      state := s }
  else
    let s1 : InstanceState := { s with inputReadyState := .notReadyForInput }
    let s2 := updateMagicVariables ho s1
    let exprRes := o.dostring ("return " ++ input)
    let step : ExecStatus × List Event :=
      match exprRes.outcome with
      | .ok stack =>
        (.successfulScriptExecution,
         exprRes.events.map ScriptEvent.toEvent ++ exprOutputEvents o stack)
      | .error _ =>
        let stmtRes := o.dostring input
        match stmtRes.outcome with
        | .ok _ =>
          (.successfulScriptExecution,
           exprRes.events.map ScriptEvent.toEvent ++
           stmtRes.events.map ScriptEvent.toEvent)
        | .error e =>
          let msg := safeToString e
          (.invalidScriptInput,
           exprRes.events.map ScriptEvent.toEvent ++
           stmtRes.events.map ScriptEvent.toEvent ++
           (if msg = "" then [] else [.errorEv (msg ++ "\n")]))
    { result := step.1
      events := .inputReadyStateChangedEv .notReadyForInput ::
        (step.2 ++ [.inputReadyStateChangedEv .readyForScriptProgramInput])
      state := { s2 with inputReadyState := .readyForScriptProgramInput } }

/-- ExecuteScriptInputFromFilename (lines 276-314): same readiness
bracketing and magic-variable refresh, one luaL_dofile, no
expression retry; note the source restores readiness before reporting a
failure, so the error event follows the ready notification.  The error
text is obtained with raw lua_tolstring, falling back to a fixed message
for values it cannot convert. -/
def executeScriptInputFromFilename (o : LuaOracle) (ho : HostOracle)
    (s : InstanceState) (filename : String) : ExecOutcome :=
  if !s.luaState then
    { result := .invalidScriptInput
      events := [.errorEv "Lua state not initialized"]
      state := s }
  else
    let s1 : InstanceState := { s with inputReadyState := .notReadyForInput }
    let s2 := updateMagicVariables ho s1
    let r := o.dofile filename
    let s3 : InstanceState := { s2 with inputReadyState := .readyForScriptProgramInput }
    let pre : List Event := .inputReadyStateChangedEv .notReadyForInput ::
      (r.events.map ScriptEvent.toEvent ++
       [.inputReadyStateChangedEv .readyForScriptProgramInput])
    match r.outcome with
    | .ok _ => { result := .successfulScriptExecution, events := pre, state := s3 }
    | .error e =>
      let msgEv : Event :=
        match rawTolstring e with
        | some str => .errorEv str
        | none => .errorEv "Script execution failed: Unknown error"
      { result := .invalidScriptInput, events := pre ++ [msgEv], state := s3 }

/-- InitializeLuaState (lines 53-88), keyed on whether luaL_newstate
succeeds: on failure, one error message and the session keeps no Lua
state; on success, bindings are set up (SetupBindings calls
UpdateMagicVariables) and the current readiness is notified. -/
def initializeLuaState (ho : HostOracle) (creationOk : Bool)
    (s : InstanceState) : InstanceState × List Event :=
  if !creationOk then
    ({ s with luaState := false }, [.errorEv "Failed to create Lua state"])
  else
    let s1 := updateMagicVariables ho { s with luaState := true }
    (s1, [.inputReadyStateChangedEv s1.inputReadyState])

/-- Magic environment before any assignment: every global unset, which a
Lua read observes as nil. -/
def emptyEnv : MagicEnv :=
  { current_function := .nilB, bv := .nilB, current_view := .nilB
    current_basic_block := .nilB, current_address := .nilB, here := .nilB
    current_selection := .nilB, current_raw_offset := .nilB
    current_sections := .nilB, current_symbol := .nilB
    current_symbols := .nilB, current_comment := .nilB
    current_llil := .nilB, current_mlil := .nilB, current_hlil := .nilB }

/-- Session state as established by the LuaScriptingInstance constructor
initializer list (lines 38-46), before InitializeLuaState runs. -/
def initialState : InstanceState :=
  { luaState := false
    env := emptyEnv
    live := { view := none, func := none, block := none,
              address := 0, selBegin := 0, selEnd := 0 }
    cached := { view := none, func := none, block := none,
                address := 0, selBegin := 0, selEnd := 0 }
    inputReadyState := .readyForScriptProgramInput }

/-- The get_selected_data closure registered by SetupUtilityFunctions
(lines 577-599): empty result with no bound view or when
selectionBegin >= selectionEnd, otherwise the bytes ReadBuffer returns
for the range starting at selectionBegin of length selectionEnd -
selectionBegin (uint64_t subtraction). -/
def getSelectedData (ho : HostOracle) (s : InstanceState) : List Nat :=
  match s.live.view with
  | none => []
  | some v =>
    if s.live.selBegin ≥ s.live.selEnd then []
    else ho.readBuffer v s.live.selBegin (u64sub s.live.selEnd s.live.selBegin)

/-- Recognizer for readiness notifications carrying a given state. -/
def isReadyStateEv (r : ReadyState) : Event → Bool
  | .inputReadyStateChangedEv x => decide (x = r)
  | _ => false

/-- Recognizer for error-channel events. -/
def isErrorEv : Event → Bool
  | .errorEv _ => true
  | _ => false

/-- Recognizer for output-channel events. -/
def isOutputEv : Event → Bool
  | .outputEv _ => true
  | _ => false

/-- Host oracle on which every query succeeds with the empty answer. -/
def hoTriv : HostOracle :=
  { dataOffsetForAddress := fun _ _ => .ok none
    sectionsAt := fun _ _ => .ok []
    symbolAt := fun _ _ => .ok none
    commentAt := fun _ _ => .ok ""
    lowLevelIL := fun f => .ok f
    mediumLevelIL := fun f => .ok f
    highLevelIL := fun f => .ok f
    readBuffer := fun _ _ n => List.replicate n 0 }

/-- Interpreter oracle on which every chunk runs silently and leaves an
empty stack. -/
def oTriv : LuaOracle :=
  { dostring := fun _ => ⟨[], .ok []⟩
    dofile := fun _ => ⟨[], .ok []⟩
    dumpIsFunction := true
    dumpCall := fun _ => ([], .ok (some "{}"))
    tolstring := fun v => some (safeToString v) }

/-- A freshly opened session whose Lua state was created successfully:
the constructor state with m_luaState set. -/
def sReady : InstanceState := { initialState with luaState := true }

lemma script_events_no_ready (l : List ScriptEvent) (r : ReadyState) :
    (l.map ScriptEvent.toEvent).countP (isReadyStateEv r) = 0 := by
  induction l with
  | nil => rfl
  | cons x xs ih =>
    cases x <;> simp [ScriptEvent.toEvent, List.countP_cons, isReadyStateEv, ih]

lemma toEvent_not_ready (se : ScriptEvent) (r : ReadyState) :
    isReadyStateEv r se.toEvent = false := by
  cases se <;> rfl

lemma mem_exprOutputEvents_not_ready (o : LuaOracle) (stack : List LuaValue)
    (a : Event) (ha : a ∈ exprOutputEvents o stack) (r : ReadyState) :
    isReadyStateEv r a = false := by
  unfold exprOutputEvents at ha
  split at ha
  · exact absurd ha (List.not_mem_nil a)
  · exact absurd ha (List.not_mem_nil a)
  · split at ha
    · split at ha
      · rcases List.mem_append.1 ha with hm | hm
        · obtain ⟨se, -, rfl⟩ := List.mem_map.1 hm
          exact toEvent_not_ready se r
        · rw [List.mem_singleton] at hm
          subst hm
          rfl
      · obtain ⟨se, -, rfl⟩ := List.mem_map.1 ha
        exact toEvent_not_ready se r
      · obtain ⟨se, -, rfl⟩ := List.mem_map.1 ha
        exact toEvent_not_ready se r
    · rw [List.mem_singleton] at ha
      subst ha
      rfl
  · split at ha
    · rw [List.mem_singleton] at ha
      subst ha
      rfl
    · exact absurd ha (List.not_mem_nil a)

lemma exprOutputEvents_no_ready (o : LuaOracle) (stack : List LuaValue)
    (r : ReadyState) :
    (exprOutputEvents o stack).countP (isReadyStateEv r) = 0 := by
  rw [List.countP_eq_zero]
  intro a ha
  simp [mem_exprOutputEvents_not_ready o stack a ha r]

lemma snapshot_eq_of_fields {x y : Snapshot}
    (h1 : x.view = y.view) (h2 : x.func = y.func) (h3 : x.block = y.block)
    (h4 : x.address = y.address) (h5 : x.selBegin = y.selBegin)
    (h6 : x.selEnd = y.selEnd) : x = y := by
  cases x; cases y; simp_all

lemma hasContextChanged_eq_false_iff (s : InstanceState) :
    hasContextChanged s = false ↔ s.live = s.cached := by
  unfold hasContextChanged
  simp only [Bool.or_eq_false_iff, bne_eq_false_iff_eq]
  constructor
  · rintro ⟨⟨⟨⟨⟨h1, h2⟩, h3⟩, h4⟩, h5⟩, h6⟩
    exact snapshot_eq_of_fields h1 h2 h3 h4 h5 h6
  · intro h
    rw [h]
    simp

lemma u64sub_eq_sub (a b : Nat) (hba : b ≤ a) (ha : a < u64) :
    u64sub a b = a - b := by
  unfold u64sub u64 at *
  omega

/-- C4: for all unsigned 64-bit values a and b, Selection(a, b).length()
equals b - a when b > a and 0 otherwise, and is never negative (the
result type is a natural number). -/
theorem selection_length_spec (a b : Nat) (ha : a < u64) (hb : b < u64) :
    (Selection.mk a b).length = (if b > a then b - a else 0) ∧
    0 ≤ (Selection.mk a b).length := by
  refine ⟨?_, Nat.zero_le _⟩
  show (if b > a then u64sub b a else 0) = _
  split
  · exact u64sub_eq_sub b a (by omega) hb
  · rfl

/-- Witness for selection_length_spec at a = 3, b = 10. -/
theorem selection_length_spec_witness :
    (Selection.mk 3 10).length = (if 10 > 3 then 10 - 3 else 0) ∧
    0 ≤ (Selection.mk 3 10).length :=
  selection_length_spec 3 10 (by norm_num [u64]) (by norm_num [u64])

/-- C7: safeToString is total (never throws) and returns, by runtime
kind: the raw string for strings; integer-preserving formatting for Lua
integers and the float formatting for floats; true/false for booleans;
nil for the null value; for userdata the string returned by the
registered __tostring hook when the hook succeeds, and the generic
typename tag (userdata) when the hook raises or when no hook is
registered; a table placeholder for tables; a function placeholder for
functions; and the generic typename tag for any other kind.  (A hook
whose result converts to neither string nor number yields the
tostring-failed marker, source line 391.) -/
theorem safeToString_spec :
    (∀ s, safeToString (.strVal s) = s) ∧
    (∀ i, safeToString (.intVal i) = toString i) ∧
    (∀ r, safeToString (.floatVal r) = r) ∧
    safeToString (.boolean true) = "true" ∧
    safeToString (.boolean false) = "false" ∧
    safeToString .nil = "nil" ∧
    (∀ s, safeToString (.userdata (some (.stringResult s))) = s) ∧
    safeToString (.userdata (some .hookError)) = "<userdata>" ∧
    safeToString (.userdata none) = "<userdata>" ∧
    safeToString (.userdata (some .nonStringResult)) = "<tostring failed>" ∧
    (∀ id, safeToString (.tableVal id) = "<table>") ∧
    (∀ id, safeToString (.funcVal id) = "<function>") ∧
    (∀ tn, safeToString (.other tn) = "<" ++ tn ++ ">") :=
  ⟨fun _ => rfl, fun _ => rfl, fun _ => rfl, rfl, rfl, rfl, fun _ => rfl,
   rfl, rfl, rfl, fun _ => rfl, fun _ => rfl, fun _ => rfl⟩

lemma executeScriptInput_expr_ok (o : LuaOracle) (ho : HostOracle)
    (s : InstanceState) (input : String) (stack : List LuaValue)
    (h : s.luaState = true)
    (hs : (o.dostring ("return " ++ input)).outcome = .ok stack) :
    executeScriptInput o ho s input =
      { result := .successfulScriptExecution
        events := .inputReadyStateChangedEv .notReadyForInput ::
          ((o.dostring ("return " ++ input)).events.map ScriptEvent.toEvent ++
           (exprOutputEvents o stack ++
            [.inputReadyStateChangedEv .readyForScriptProgramInput]))
        state := { updateMagicVariables ho { s with inputReadyState := .notReadyForInput } with
                   inputReadyState := .readyForScriptProgramInput } } := by
  simp [executeScriptInput, h, hs, List.append_assoc]

lemma executeScriptInput_stmt_ok (o : LuaOracle) (ho : HostOracle)
    (s : InstanceState) (input : String) (e : LuaValue) (stack : List LuaValue)
    (h : s.luaState = true)
    (he : (o.dostring ("return " ++ input)).outcome = .error e)
    (hs : (o.dostring input).outcome = .ok stack) :
    executeScriptInput o ho s input =
      { result := .successfulScriptExecution
        events := .inputReadyStateChangedEv .notReadyForInput ::
          ((o.dostring ("return " ++ input)).events.map ScriptEvent.toEvent ++
           ((o.dostring input).events.map ScriptEvent.toEvent ++
            [.inputReadyStateChangedEv .readyForScriptProgramInput]))
        state := { updateMagicVariables ho { s with inputReadyState := .notReadyForInput } with
                   inputReadyState := .readyForScriptProgramInput } } := by
  simp [executeScriptInput, h, he, hs, List.append_assoc]

lemma executeScriptInput_both_fail (o : LuaOracle) (ho : HostOracle)
    (s : InstanceState) (input : String) (e1 e2 : LuaValue)
    (h : s.luaState = true)
    (he1 : (o.dostring ("return " ++ input)).outcome = .error e1)
    (he2 : (o.dostring input).outcome = .error e2) :
    executeScriptInput o ho s input =
      { result := .invalidScriptInput
        events := .inputReadyStateChangedEv .notReadyForInput ::
          ((o.dostring ("return " ++ input)).events.map ScriptEvent.toEvent ++
           ((o.dostring input).events.map ScriptEvent.toEvent ++
            ((if safeToString e2 = "" then []
              else [Event.errorEv (safeToString e2 ++ "\n")]) ++
             [.inputReadyStateChangedEv .readyForScriptProgramInput])))
        state := { updateMagicVariables ho { s with inputReadyState := .notReadyForInput } with
                   inputReadyState := .readyForScriptProgramInput } } := by
  simp [executeScriptInput, h, he1, he2, List.append_assoc]

lemma readiness_shape (mid : List Event)
    (hmid : ∀ r, mid.countP (isReadyStateEv r) = 0) :
    (Event.inputReadyStateChangedEv .notReadyForInput ::
      (mid ++ [Event.inputReadyStateChangedEv .readyForScriptProgramInput])).head? =
      some (.inputReadyStateChangedEv .notReadyForInput) ∧
    (Event.inputReadyStateChangedEv .notReadyForInput ::
      (mid ++ [Event.inputReadyStateChangedEv .readyForScriptProgramInput])).getLast? =
      some (.inputReadyStateChangedEv .readyForScriptProgramInput) ∧
    (Event.inputReadyStateChangedEv .notReadyForInput ::
      (mid ++ [Event.inputReadyStateChangedEv .readyForScriptProgramInput])).countP
      (isReadyStateEv .readyForScriptProgramInput) = 1 ∧
    (Event.inputReadyStateChangedEv .notReadyForInput ::
      (mid ++ [Event.inputReadyStateChangedEv .readyForScriptProgramInput])).countP
      (isReadyStateEv .notReadyForInput) = 1 := by
  refine ⟨rfl, ?_, ?_, ?_⟩
  · rw [← List.cons_append, List.getLast?_concat]
  · rw [List.countP_cons, List.countP_append, hmid, List.countP_cons]
    simp [isReadyStateEv]
  · rw [List.countP_cons, List.countP_append, hmid, List.countP_cons]
    simp [isReadyStateEv]

/-- C8: on an initialized session, every call to ExecuteScriptInput emits
the not-ready notification strictly first (head of the trace, emitted
exactly once), and the ready notification exactly once, as the last event
of the trace, on every exit path; Lua execution errors are returned as
protected-mode status values, so every path of the evaluator runs the
trailing readiness restoration. -/
theorem readiness_notification_bracketing (o : LuaOracle) (ho : HostOracle)
    (s : InstanceState) (input : String) (h : s.luaState = true) :
    (executeScriptInput o ho s input).events.head? =
      some (.inputReadyStateChangedEv .notReadyForInput) ∧
    (executeScriptInput o ho s input).events.getLast? =
      some (.inputReadyStateChangedEv .readyForScriptProgramInput) ∧
    (executeScriptInput o ho s input).events.countP
      (isReadyStateEv .readyForScriptProgramInput) = 1 ∧
    (executeScriptInput o ho s input).events.countP
      (isReadyStateEv .notReadyForInput) = 1 := by
  rcases hexp : (o.dostring ("return " ++ input)).outcome with e1 | stack
  · rcases hstmt : (o.dostring input).outcome with e2 | stack2
    · rw [executeScriptInput_both_fail o ho s input e1 e2 h hexp hstmt]
      dsimp only
      rw [show ((o.dostring ("return " ++ input)).events.map ScriptEvent.toEvent ++
             ((o.dostring input).events.map ScriptEvent.toEvent ++
              ((if safeToString e2 = "" then []
                else [Event.errorEv (safeToString e2 ++ "\n")]) ++
               [Event.inputReadyStateChangedEv .readyForScriptProgramInput]))) =
            (((o.dostring ("return " ++ input)).events.map ScriptEvent.toEvent ++
              ((o.dostring input).events.map ScriptEvent.toEvent ++
               (if safeToString e2 = "" then []
                else [Event.errorEv (safeToString e2 ++ "\n")]))) ++
             [Event.inputReadyStateChangedEv .readyForScriptProgramInput]) by
              simp [List.append_assoc]]
      refine readiness_shape _ ?_
      intro r
      rw [List.countP_append, List.countP_append, script_events_no_ready,
        script_events_no_ready]
      split <;> simp [isReadyStateEv, List.countP_cons]
    · rw [executeScriptInput_stmt_ok o ho s input e1 stack2 h hexp hstmt]
      dsimp only
      rw [show ((o.dostring ("return " ++ input)).events.map ScriptEvent.toEvent ++
             ((o.dostring input).events.map ScriptEvent.toEvent ++
              [Event.inputReadyStateChangedEv .readyForScriptProgramInput])) =
            (((o.dostring ("return " ++ input)).events.map ScriptEvent.toEvent ++
              (o.dostring input).events.map ScriptEvent.toEvent) ++
             [Event.inputReadyStateChangedEv .readyForScriptProgramInput]) by
              simp [List.append_assoc]]
      refine readiness_shape _ ?_
      intro r
      rw [List.countP_append, script_events_no_ready, script_events_no_ready]
  · rw [executeScriptInput_expr_ok o ho s input stack h hexp]
    dsimp only
    rw [show ((o.dostring ("return " ++ input)).events.map ScriptEvent.toEvent ++
           (exprOutputEvents o stack ++
            [Event.inputReadyStateChangedEv .readyForScriptProgramInput])) =
          (((o.dostring ("return " ++ input)).events.map ScriptEvent.toEvent ++
            exprOutputEvents o stack) ++
           [Event.inputReadyStateChangedEv .readyForScriptProgramInput]) by
            simp [List.append_assoc]]
    refine readiness_shape _ ?_
    intro r
    rw [List.countP_append, script_events_no_ready, exprOutputEvents_no_ready]

/-- Witness for readiness_notification_bracketing on the trivial oracle
and a freshly initialized session. -/
theorem readiness_notification_bracketing_witness :
    (executeScriptInput oTriv hoTriv sReady "x").events.head? =
      some (.inputReadyStateChangedEv .notReadyForInput) ∧
    (executeScriptInput oTriv hoTriv sReady "x").events.getLast? =
      some (.inputReadyStateChangedEv .readyForScriptProgramInput) ∧
    (executeScriptInput oTriv hoTriv sReady "x").events.countP
      (isReadyStateEv .readyForScriptProgramInput) = 1 ∧
    (executeScriptInput oTriv hoTriv sReady "x").events.countP
      (isReadyStateEv .notReadyForInput) = 1 :=
  readiness_notification_bracketing oTriv hoTriv sReady "x" rfl

/-- Interpreter oracle reproducing Lua behaviour on the input
assert(false, [[]]): both the expression form and the statement form fail
in protected mode with the empty string as the error value, emitting no
events of their own. -/
def oEmptyErr : LuaOracle :=
  { dostring := fun _ => ⟨[], .error (.strVal "")⟩
    dofile := fun _ => ⟨[], .ok []⟩
    dumpIsFunction := false
    dumpCall := fun _ => ([], .ok none)
    tolstring := fun _ => none }

/-- Counterexample to C2 as stated: on the input assert(false, [[]]) both
execution attempts fail, ExecuteScriptInput returns InvalidScriptInput,
yet zero error messages are emitted, because the safe-stringified
statement error is the empty string and line 262 suppresses empty
messages.  The claim requires exactly one. -/
theorem evaluate_double_failure_counterexample :
    (oEmptyErr.dostring ("return " ++ "assert(false, [[]])")).outcome =
      .error (.strVal "") ∧
    (oEmptyErr.dostring "assert(false, [[]])").outcome = .error (.strVal "") ∧
    (executeScriptInput oEmptyErr hoTriv sReady "assert(false, [[]])").result =
      .invalidScriptInput ∧
    (executeScriptInput oEmptyErr hoTriv sReady "assert(false, [[]])").events.countP
      isErrorEv = 0 :=
  ⟨rfl, rfl, rfl, rfl⟩

/-- C2 (amended): for every input that fails both as an expression and as
a statement sequence, ExecuteScriptInput returns InvalidScriptInput and
the evaluator itself emits at most one error message: exactly one,
carrying the safe-stringified statement error, when that stringification
is non-empty, and none when it is empty.  The discarded expression-mode
error is never reported: the full trace consists of the readiness
bracket, the events the two protected runs themselves emitted, and the
optional single statement-error message only. -/
theorem evaluate_double_failure_contract (o : LuaOracle) (ho : HostOracle)
    (s : InstanceState) (input : String) (e1 e2 : LuaValue)
    (h : s.luaState = true)
    (he1 : (o.dostring ("return " ++ input)).outcome = .error e1)
    (he2 : (o.dostring input).outcome = .error e2) :
    (executeScriptInput o ho s input).result = .invalidScriptInput ∧
    (executeScriptInput o ho s input).events =
      .inputReadyStateChangedEv .notReadyForInput ::
      ((o.dostring ("return " ++ input)).events.map ScriptEvent.toEvent ++
       ((o.dostring input).events.map ScriptEvent.toEvent ++
        ((if safeToString e2 = "" then []
          else [Event.errorEv (safeToString e2 ++ "\n")]) ++
         [.inputReadyStateChangedEv .readyForScriptProgramInput]))) ∧
    (executeScriptInput o ho s input).events.countP isErrorEv =
      ((o.dostring ("return " ++ input)).events.map ScriptEvent.toEvent).countP
        isErrorEv +
      (((o.dostring input).events.map ScriptEvent.toEvent).countP isErrorEv +
       (if safeToString e2 = "" then 0 else 1)) := by
  rw [executeScriptInput_both_fail o ho s input e1 e2 h he1 he2]
  dsimp only
  refine ⟨rfl, rfl, ?_⟩
  rw [List.countP_cons, List.countP_append, List.countP_append,
    List.countP_append]
  split <;> simp [isErrorEv, List.countP_cons]

/-- Interpreter oracle on which every chunk fails with a non-empty
string error. -/
def oBothFail : LuaOracle :=
  { dostring := fun _ => ⟨[], .error (.strVal "boom")⟩
    dofile := fun _ => ⟨[], .error (.strVal "boom")⟩
    dumpIsFunction := false
    dumpCall := fun _ => ([], .ok none)
    tolstring := fun _ => none }

/-- Witness for evaluate_double_failure_contract on a doubly failing
input with a non-empty error. -/
theorem evaluate_double_failure_contract_witness :
    (executeScriptInput oBothFail hoTriv sReady "f()").result =
      .invalidScriptInput ∧
    (executeScriptInput oBothFail hoTriv sReady "f()").events =
      .inputReadyStateChangedEv .notReadyForInput ::
      ((oBothFail.dostring ("return " ++ "f()")).events.map ScriptEvent.toEvent ++
       ((oBothFail.dostring "f()").events.map ScriptEvent.toEvent ++
        ((if safeToString (.strVal "boom") = "" then []
          else [Event.errorEv (safeToString (.strVal "boom") ++ "\n")]) ++
         [.inputReadyStateChangedEv .readyForScriptProgramInput]))) ∧
    (executeScriptInput oBothFail hoTriv sReady "f()").events.countP isErrorEv =
      ((oBothFail.dostring ("return " ++ "f()")).events.map ScriptEvent.toEvent).countP
        isErrorEv +
      (((oBothFail.dostring "f()").events.map ScriptEvent.toEvent).countP isErrorEv +
       (if safeToString (.strVal "boom") = "" then 0 else 1)) :=
  evaluate_double_failure_contract oBothFail hoTriv sReady "f()"
    (.strVal "boom") (.strVal "boom") rfl rfl rfl

/-- Interpreter oracle reproducing a session in which the global dump has
been rebound to a function that raises: the input t names a table, so the
expression attempt succeeds with a table value, and the dump pcall
fails. -/
def oDumpFail : LuaOracle :=
  { dostring := fun prog =>
      if prog = "return t" then ⟨[], .ok [.tableVal 0]⟩ else ⟨[], .error .nil⟩
    dofile := fun _ => ⟨[], .ok []⟩
    dumpIsFunction := true
    dumpCall := fun _ => ([], .error ())
    tolstring := fun _ => none }

/-- Counterexample to C1 as stated: the expression attempt succeeds with
a non-nil table value, yet the evaluator emits no output at all, because
the dump pcall fails and lines 230-232 pop the error without any
fallback output; the call still reports success.  The claim requires the
value to be formatted and output. -/
theorem evaluate_table_dump_failure_counterexample :
    (oDumpFail.dostring ("return " ++ "t")).outcome = .ok [.tableVal 0] ∧
    LuaValue.tableVal 0 ≠ LuaValue.nil ∧
    oDumpFail.dumpIsFunction = true ∧
    (executeScriptInput oDumpFail hoTriv sReady "t").result =
      .successfulScriptExecution ∧
    (executeScriptInput oDumpFail hoTriv sReady "t").events.countP isOutputEv = 0 :=
  ⟨rfl, by decide, rfl, rfl, rfl⟩

/-- C1 (amended): for every input on an initialized session, the
evaluator first attempts the input as an expression.  If that succeeds,
the call reports success and the evaluator output is determined by the
top of the value stack: nothing when the stack is empty or nil is on
top; for a table on top, the dump result when the dump global is a
function and its pcall returns a convertible value, no output when the
dump pcall raises or its result is unconvertible, and a table
placeholder when dump is not a function; for any other value its
metamethod-respecting stringification when convertible.  If the
expression attempt fails and the statement run succeeds, the call
reports success and the evaluator itself emits no output. -/
theorem evaluate_expression_output_contract (o : LuaOracle) (ho : HostOracle)
    (s : InstanceState) (input : String) (h : s.luaState = true) :
    (∀ stack, (o.dostring ("return " ++ input)).outcome = .ok stack →
      (executeScriptInput o ho s input).result = .successfulScriptExecution ∧
      (executeScriptInput o ho s input).events =
        .inputReadyStateChangedEv .notReadyForInput ::
        ((o.dostring ("return " ++ input)).events.map ScriptEvent.toEvent ++
         (exprOutputEvents o stack ++
          [.inputReadyStateChangedEv .readyForScriptProgramInput]))) ∧
    exprOutputEvents o [] = [] ∧
    (∀ rest, exprOutputEvents o (.nil :: rest) = []) ∧
    (∀ id rest evs str, o.dumpIsFunction = true →
      o.dumpCall (.tableVal id) = (evs, .ok (some str)) →
      exprOutputEvents o (.tableVal id :: rest) =
        evs.map ScriptEvent.toEvent ++ [.outputEv (str ++ "\n")]) ∧
    (∀ id rest evs, o.dumpIsFunction = true →
      o.dumpCall (.tableVal id) = (evs, .error ()) →
      exprOutputEvents o (.tableVal id :: rest) = evs.map ScriptEvent.toEvent) ∧
    (∀ id rest evs, o.dumpIsFunction = true →
      o.dumpCall (.tableVal id) = (evs, .ok none) →
      exprOutputEvents o (.tableVal id :: rest) = evs.map ScriptEvent.toEvent) ∧
    (∀ id rest, o.dumpIsFunction = false →
      exprOutputEvents o (.tableVal id :: rest) = [.outputEv "<table>\n"]) ∧
    (∀ v rest str, v ≠ .nil → (∀ id, v ≠ .tableVal id) →
      o.tolstring v = some str →
      exprOutputEvents o (v :: rest) = [.outputEv (str ++ "\n")]) ∧
    (∀ e stack2, (o.dostring ("return " ++ input)).outcome = .error e →
      (o.dostring input).outcome = .ok stack2 →
      (executeScriptInput o ho s input).result = .successfulScriptExecution ∧
      (executeScriptInput o ho s input).events =
        .inputReadyStateChangedEv .notReadyForInput ::
        ((o.dostring ("return " ++ input)).events.map ScriptEvent.toEvent ++
         ((o.dostring input).events.map ScriptEvent.toEvent ++
          [.inputReadyStateChangedEv .readyForScriptProgramInput]))) := by
  refine ⟨?_, rfl, fun rest => rfl, ?_, ?_, ?_, ?_, ?_, ?_⟩
  · intro stack hs
    rw [executeScriptInput_expr_ok o ho s input stack h hs]
    exact ⟨rfl, rfl⟩
  · intro id rest evs str hdf hdc
    simp [exprOutputEvents, hdf, hdc]
  · intro id rest evs hdf hdc
    simp [exprOutputEvents, hdf, hdc]
  · intro id rest evs hdf hdc
    simp [exprOutputEvents, hdf, hdc]
  · intro id rest hdf
    simp [exprOutputEvents, hdf]
  · intro v rest str hv1 hv2 ht
    cases v with
    | nil => exact absurd rfl hv1
    | tableVal id => exact absurd rfl (hv2 id)
    | boolean b => simp [exprOutputEvents, ht]
    | intVal i => simp [exprOutputEvents, ht]
    | floatVal r => simp [exprOutputEvents, ht]
    | strVal sv => simp [exprOutputEvents, ht]
    | userdata hook => simp [exprOutputEvents, ht]
    | funcVal id => simp [exprOutputEvents, ht]
    | other tn => simp [exprOutputEvents, ht]
  · intro e stack2 he hs
    rw [executeScriptInput_stmt_ok o ho s input e stack2 h he hs]
    exact ⟨rfl, rfl⟩

/-- Witness for evaluate_expression_output_contract on the trivial
oracle: the expression attempt succeeds with an empty stack and the call
reports silent success. -/
theorem evaluate_expression_output_contract_witness :
    (executeScriptInput oTriv hoTriv sReady "x").result =
      .successfulScriptExecution ∧
    (executeScriptInput oTriv hoTriv sReady "x").events =
      .inputReadyStateChangedEv .notReadyForInput ::
      ((oTriv.dostring ("return " ++ "x")).events.map ScriptEvent.toEvent ++
       (exprOutputEvents oTriv [] ++
        [.inputReadyStateChangedEv .readyForScriptProgramInput])) :=
  (evaluate_expression_output_contract oTriv hoTriv sReady "x" rfl).1 [] rfl

/-- C3: the magic-variable refresh runs before every script execution
(the final session state of either execution entry point is exactly the
refreshed state with readiness restored); the refresh performs rebinding
work and commits only when HasContextChanged is true and is the identity
otherwise; immediately after any refresh on an initialized session the
cached snapshot equals the live snapshot and HasContextChanged is false;
and an address setter storing the current value is the identity, so it
leaves HasContextChanged false if nothing else changed. -/
theorem context_sync_contract :
    (∀ (o : LuaOracle) (ho : HostOracle) (s : InstanceState) (input : String),
      s.luaState = true →
      (executeScriptInput o ho s input).state =
        { updateMagicVariables ho { s with inputReadyState := .notReadyForInput } with
          inputReadyState := .readyForScriptProgramInput }) ∧
    (∀ (o : LuaOracle) (ho : HostOracle) (s : InstanceState) (fn : String),
      s.luaState = true →
      (executeScriptInputFromFilename o ho s fn).state =
        { updateMagicVariables ho { s with inputReadyState := .notReadyForInput } with
          inputReadyState := .readyForScriptProgramInput }) ∧
    (∀ (ho : HostOracle) (s : InstanceState), hasContextChanged s = false →
      updateMagicVariables ho s = s) ∧
    (∀ (ho : HostOracle) (s : InstanceState), s.luaState = true →
      hasContextChanged s = true →
      updateMagicVariables ho s =
        { s with env := updateMagicVariableValues ho s.live s.env,
                 cached := s.live }) ∧
    (∀ (ho : HostOracle) (s : InstanceState), s.luaState = true →
      (updateMagicVariables ho s).cached = (updateMagicVariables ho s).live ∧
      hasContextChanged (updateMagicVariables ho s) = false) ∧
    (∀ (s : InstanceState) (a : Nat), a = s.live.address →
      setCurrentAddress a s = s) ∧
    (∀ (s : InstanceState) (a : Nat), hasContextChanged s = false →
      a = s.live.address → hasContextChanged (setCurrentAddress a s) = false) := by
  have hsetter : ∀ (s : InstanceState) (a : Nat), a = s.live.address →
      setCurrentAddress a s = s := by
    intro s a h
    subst h
    rfl
  have hnochange : ∀ (ho : HostOracle) (s : InstanceState),
      hasContextChanged s = false → updateMagicVariables ho s = s := by
    intro ho s hc
    simp [updateMagicVariables, hc]
  have hchange : ∀ (ho : HostOracle) (s : InstanceState), s.luaState = true →
      hasContextChanged s = true →
      updateMagicVariables ho s =
        { s with env := updateMagicVariableValues ho s.live s.env,
                 cached := s.live } := by
    intro ho s h hcc
    simp [updateMagicVariables, updateContextCache, h, hcc]
  refine ⟨?_, ?_, hnochange, hchange, ?_, hsetter, ?_⟩
  · intro o ho s input h
    simp [executeScriptInput, h]
  · intro o ho s fn h
    rcases hr : (o.dofile fn).outcome with e | stack <;>
      simp [executeScriptInputFromFilename, h, hr]
  · intro ho s h
    by_cases hcc : hasContextChanged s
    · rw [hchange ho s h hcc]
      constructor
      · rfl
      · rw [hasContextChanged_eq_false_iff]
    · rw [hnochange ho s (by simpa using hcc)]
      have hle := (hasContextChanged_eq_false_iff s).1 (by simpa using hcc)
      exact ⟨hle.symm, by simpa using hcc⟩
  · intro s a hc h
    rw [hsetter s a h]
    exact hc

/-- Session state after the host moved the cursor to 0x2000: the live
address differs from the cached one. -/
def sChanged : InstanceState := setCurrentAddress 0x2000 sReady

/-- Witness for context_sync_contract, instantiating every conjunct on
concrete sessions and oracles. -/
theorem context_sync_contract_witness :
    (executeScriptInput oTriv hoTriv sReady "y").state =
      { updateMagicVariables hoTriv { sReady with inputReadyState := .notReadyForInput } with
        inputReadyState := .readyForScriptProgramInput } ∧
    (executeScriptInputFromFilename oTriv hoTriv sReady "a.lua").state =
      { updateMagicVariables hoTriv { sReady with inputReadyState := .notReadyForInput } with
        inputReadyState := .readyForScriptProgramInput } ∧
    updateMagicVariables hoTriv sReady = sReady ∧
    updateMagicVariables hoTriv sChanged =
      { sChanged with
        env := updateMagicVariableValues hoTriv sChanged.live sChanged.env,
        cached := sChanged.live } ∧
    ((updateMagicVariables hoTriv sChanged).cached =
      (updateMagicVariables hoTriv sChanged).live ∧
     hasContextChanged (updateMagicVariables hoTriv sChanged) = false) ∧
    setCurrentAddress 8192 sChanged = sChanged ∧
    hasContextChanged (setCurrentAddress 0 sReady) = false := by
  obtain ⟨c1, c2, c3, c4, c5, c6, c7⟩ := context_sync_contract
  exact ⟨c1 oTriv hoTriv sReady "y" rfl, c2 oTriv hoTriv sReady "a.lua" rfl,
    c3 hoTriv sReady rfl, c4 hoTriv sChanged rfl (by decide),
    c5 hoTriv sChanged rfl, c6 sChanged 8192 rfl, c7 sReady 0 rfl rfl⟩

/-- Host oracle on which the sections-at-address query throws while every
other query succeeds. -/
def hoSectionsFail : HostOracle :=
  { hoTriv with sectionsAt := fun _ _ => .error () }

/-- Stale magic environment left over from an earlier synchronization. -/
def envStale : MagicEnv :=
  { emptyEnv with
    current_symbol := .symbolRef 7
    current_sections := .sectionList [3]
    current_comment := .strB "old" }

/-- Snapshot with a bound view at address 0x401000. -/
def snapEx : Snapshot :=
  { view := some 1, func := none, block := none,
    address := 0x401000, selBegin := 0, selEnd := 0 }

/-- Counterexample to C5 as stated: when deriving the section list
throws, the function-scope try/catch of UpdateMagicVariableValues aborts
the remaining derivations.  The host reports no symbol at the address,
yet current_symbol keeps its stale previous binding instead of the absent
representation, the failing current_sections keeps its stale value, and
current_comment is not recomputed either; only the fields assigned
before the failure (for example current_raw_offset) were rebound. -/
theorem magic_rebind_abort_counterexample :
    hoSectionsFail.symbolAt 1 snapEx.address = .ok none ∧
    (updateMagicVariableValues hoSectionsFail snapEx envStale).current_symbol =
      .symbolRef 7 ∧
    (updateMagicVariableValues hoSectionsFail snapEx envStale).current_sections =
      .sectionList [3] ∧
    (updateMagicVariableValues hoSectionsFail snapEx envStale).current_comment =
      .strB "old" ∧
    (updateMagicVariableValues hoSectionsFail snapEx envStale).current_raw_offset =
      .hexaddr 0 :=
  ⟨rfl, rfl, rfl, rfl, rfl⟩

/-- C5 (amended): a failure while deriving one magic-variable field is
swallowed, but at the scope of the whole rebinding rather than per
field: when the section-list derivation throws (with the address
translation before it succeeding), the fields assigned earlier
(function, view, block, address, selection and raw offset) are rebound,
while the failing section list and every later field (symbol, symbols,
comment, IL handles) retain their previous bindings instead of being
recomputed or reset to the absent representation. -/
theorem magic_rebind_aborts_on_failure (ho : HostOracle) (c : Snapshot)
    (env : MagicEnv) (v : Nat) (r : Option Nat)
    (hv : c.view = some v)
    (hoff : ho.dataOffsetForAddress v c.address = .ok r)
    (hsec : ho.sectionsAt v c.address = .error ()) :
    updateMagicVariableValues ho c env =
      { env with
        current_function :=
          match c.func with | some h => .funcRef h | none => .nilB
        bv := .viewRef v
        current_view := .viewRef v
        current_basic_block :=
          match c.block with | some h => .blockRef h | none => .nilB
        current_address := .hexaddr c.address
        here := .hexaddr c.address
        current_selection := .selectionB c.selBegin c.selEnd
        current_raw_offset :=
          match r with | some off => .hexaddr off | none => .hexaddr 0 } := by
  simp only [updateMagicVariableValues, magicPure, magicStepOff, tryField,
    hv, hoff, runSec, magicStepSec, hsec]
  cases r <;> rfl

/-- Witness for magic_rebind_aborts_on_failure on the concrete failing
host oracle. -/
theorem magic_rebind_aborts_on_failure_witness :
    updateMagicVariableValues hoSectionsFail snapEx emptyEnv =
      { emptyEnv with
        current_function := .nilB
        bv := .viewRef 1
        current_view := .viewRef 1
        current_basic_block := .nilB
        current_address := .hexaddr 0x401000
        here := .hexaddr 0x401000
        current_selection := .selectionB 0 0
        current_raw_offset := .hexaddr 0 } :=
  magic_rebind_aborts_on_failure hoSectionsFail snapEx emptyEnv 1 none
    rfl rfl rfl

lemma runIL_preserves (ho : HostOracle) (c : Snapshot) (e : MagicEnv) :
    (runIL ho c e).current_raw_offset = e.current_raw_offset ∧
    (runIL ho c e).current_sections = e.current_sections ∧
    (runIL ho c e).current_symbol = e.current_symbol ∧
    (runIL ho c e).current_symbols = e.current_symbols ∧
    (runIL ho c e).current_comment = e.current_comment := by
  rcases hf : c.func with _ | f
  · simp [runIL, magicStepIL, hf]
  · rcases h6 : ho.lowLevelIL f with u | hL
    · simp [runIL, magicStepIL, tryField, hf, h6]
    · rcases h7 : ho.mediumLevelIL f with u | hM
      · simp [runIL, magicStepIL, tryField, hf, h6, h7]
      · rcases h8 : ho.highLevelIL f with u | hH <;>
          simp [runIL, magicStepIL, tryField, hf, h6, h7, h8]

lemma runCom_preserves (ho : HostOracle) (c : Snapshot) (e : MagicEnv) :
    (runCom ho c e).current_raw_offset = e.current_raw_offset ∧
    (runCom ho c e).current_sections = e.current_sections ∧
    (runCom ho c e).current_symbol = e.current_symbol ∧
    (runCom ho c e).current_symbols = e.current_symbols := by
  rcases hv : c.view with _ | v
  · have h := runIL_preserves ho c { e with current_comment := Binding.strB "" }
    simp only [runCom, magicStepCom, hv]
    exact ⟨h.1, h.2.1, h.2.2.1, h.2.2.2.1⟩
  · rcases hq : ho.commentAt v c.address with u | cm
    · simp [runCom, magicStepCom, tryField, hv, hq]
    · have h := runIL_preserves ho c { e with current_comment := Binding.strB cm }
      simp only [runCom, magicStepCom, tryField, hv, hq]
      exact ⟨h.1, h.2.1, h.2.2.1, h.2.2.2.1⟩

lemma runCom_comment (ho : HostOracle) (c : Snapshot) (e : MagicEnv)
    (v : Nat) (cm : String)
    (hv : c.view = some v) (hq : ho.commentAt v c.address = .ok cm) :
    (runCom ho c e).current_comment = .strB cm := by
  have h := runIL_preserves ho c { e with current_comment := Binding.strB cm }
  simp only [runCom, magicStepCom, tryField, hv, hq]
  exact h.2.2.2.2

lemma runCom_comment_none (ho : HostOracle) (c : Snapshot) (e : MagicEnv)
    (hv : c.view = none) :
    (runCom ho c e).current_comment = .strB "" := by
  have h := runIL_preserves ho c { e with current_comment := Binding.strB "" }
  simp only [runCom, magicStepCom, hv]
  exact h.2.2.2.2

lemma runSym_preserves (ho : HostOracle) (c : Snapshot) (e : MagicEnv) :
    (runSym ho c e).current_raw_offset = e.current_raw_offset ∧
    (runSym ho c e).current_sections = e.current_sections := by
  rcases hv : c.view with _ | v
  · have h := runCom_preserves ho c
      { e with current_symbol := Binding.nilB,
               current_symbols := Binding.symbolList [] }
    simp only [runSym, magicStepSym, hv]
    exact ⟨h.1, h.2.1⟩
  · rcases hq : ho.symbolAt v c.address with u | symr
    · simp [runSym, magicStepSym, tryField, hv, hq]
    · rcases symr with _ | sym
      · have h := runCom_preserves ho c
          { e with current_symbol := Binding.nilB,
                   current_symbols := Binding.symbolList [] }
        simp only [runSym, magicStepSym, tryField, hv, hq]
        exact ⟨h.1, h.2.1⟩
      · have h := runCom_preserves ho c
          { e with current_symbol := Binding.symbolRef sym,
                   current_symbols := Binding.symbolList [sym] }
        simp only [runSym, magicStepSym, tryField, hv, hq]
        exact ⟨h.1, h.2.1⟩

lemma runSym_symbol (ho : HostOracle) (c : Snapshot) (e : MagicEnv)
    (v : Nat) (symr : Option Nat)
    (hv : c.view = some v) (hq : ho.symbolAt v c.address = .ok symr) :
    (runSym ho c e).current_symbol =
      (match symr with | some sym => Binding.symbolRef sym | none => .nilB) ∧
    (runSym ho c e).current_symbols =
      (match symr with
       | some sym => Binding.symbolList [sym]
       | none => .symbolList []) := by
  rcases symr with _ | sym
  · have h := runCom_preserves ho c
      { e with current_symbol := Binding.nilB,
               current_symbols := Binding.symbolList [] }
    simp only [runSym, magicStepSym, tryField, hv, hq]
    exact ⟨h.2.2.1, h.2.2.2⟩
  · have h := runCom_preserves ho c
      { e with current_symbol := Binding.symbolRef sym,
               current_symbols := Binding.symbolList [sym] }
    simp only [runSym, magicStepSym, tryField, hv, hq]
    exact ⟨h.2.2.1, h.2.2.2⟩

lemma runSym_symbol_none (ho : HostOracle) (c : Snapshot) (e : MagicEnv)
    (hv : c.view = none) :
    (runSym ho c e).current_symbol = .nilB ∧
    (runSym ho c e).current_symbols = .symbolList [] := by
  have h := runCom_preserves ho c
    { e with current_symbol := Binding.nilB,
             current_symbols := Binding.symbolList [] }
  simp only [runSym, magicStepSym, hv]
  exact ⟨h.2.2.1, h.2.2.2⟩

lemma runSec_preserves_raw (ho : HostOracle) (c : Snapshot) (e : MagicEnv) :
    (runSec ho c e).current_raw_offset = e.current_raw_offset := by
  rcases hv : c.view with _ | v
  · have h := runSym_preserves ho c
      { e with current_sections := Binding.sectionList [] }
    simp only [runSec, magicStepSec, hv]
    exact h.1
  · rcases hq : ho.sectionsAt v c.address with u | ss
    · simp only [runSec, magicStepSec, tryField, hv, hq]
    · have h := runSym_preserves ho c
        { e with current_sections := Binding.sectionList ss }
      simp only [runSec, magicStepSec, tryField, hv, hq]
      exact h.1

lemma umvv_raw_offset (ho : HostOracle) (c : Snapshot) (env : MagicEnv)
    (v : Nat) (r : Option Nat)
    (hv : c.view = some v)
    (h1 : ho.dataOffsetForAddress v c.address = .ok r) :
    (updateMagicVariableValues ho c env).current_raw_offset =
      match r with | some off => Binding.hexaddr off | none => .hexaddr 0 := by
  simp only [updateMagicVariableValues, magicStepOff, tryField, hv, h1]
  cases r <;> exact runSec_preserves_raw ho c _

lemma umvv_view_none (ho : HostOracle) (c : Snapshot) (env : MagicEnv)
    (hv : c.view = none) :
    (updateMagicVariableValues ho c env).current_raw_offset = .hexaddr 0 ∧
    (updateMagicVariableValues ho c env).current_sections = .sectionList [] ∧
    (updateMagicVariableValues ho c env).current_symbol = .nilB ∧
    (updateMagicVariableValues ho c env).current_symbols = .symbolList [] ∧
    (updateMagicVariableValues ho c env).current_comment = .strB "" := by
  simp only [updateMagicVariableValues, magicStepOff, runSec, magicStepSec, hv]
  refine ⟨(runSym_preserves ho c _).1, (runSym_preserves ho c _).2,
    (runSym_symbol_none ho c _ hv).1, (runSym_symbol_none ho c _ hv).2, ?_⟩
  show (runSym ho c _).current_comment = _
  simp only [runSym, magicStepSym, hv]
  exact runCom_comment_none ho c _ hv

lemma umvv_symbol_fields (ho : HostOracle) (c : Snapshot) (env : MagicEnv)
    (v : Nat) (r1 : Option Nat) (ss : List Nat) (symr : Option Nat)
    (hv : c.view = some v)
    (h1 : ho.dataOffsetForAddress v c.address = .ok r1)
    (h2 : ho.sectionsAt v c.address = .ok ss)
    (h3 : ho.symbolAt v c.address = .ok symr) :
    (updateMagicVariableValues ho c env).current_symbol =
      (match symr with | some sym => Binding.symbolRef sym | none => .nilB) ∧
    (updateMagicVariableValues ho c env).current_symbols =
      (match symr with
       | some sym => Binding.symbolList [sym]
       | none => .symbolList []) := by
  simp only [updateMagicVariableValues, magicStepOff, tryField, hv, h1,
    runSec, magicStepSec, h2]
  exact runSym_symbol ho c _ v symr hv h3

lemma umvv_comment_field (ho : HostOracle) (c : Snapshot) (env : MagicEnv)
    (v : Nat) (r1 : Option Nat) (ss : List Nat) (symr : Option Nat) (cm : String)
    (hv : c.view = some v)
    (h1 : ho.dataOffsetForAddress v c.address = .ok r1)
    (h2 : ho.sectionsAt v c.address = .ok ss)
    (h3 : ho.symbolAt v c.address = .ok symr)
    (h4 : ho.commentAt v c.address = .ok cm) :
    (updateMagicVariableValues ho c env).current_comment = .strB cm := by
  simp only [updateMagicVariableValues, magicStepOff, tryField, hv, h1,
    runSec, magicStepSec, h2, runSym, magicStepSym, h3]
  exact runCom_comment ho c _ v cm hv h4

/-- C6: on synchronization, current_raw_offset is bound to the HexAddress
of the address-to-file-offset translation reported by the view, and to
the absent representation HexAddress(0) when the view reports no mapping
or when there is no current view; when the view reports no symbol at the
current address, current_symbol is bound to nil and current_symbols to
the empty list (likewise with no view); and current_comment is bound to
the string the view reports, hence to the empty string when the view
reports no comment (the host returns the empty string then) or when
there is no view. -/
theorem magic_absent_representation_contract :
    (∀ (ho : HostOracle) (c : Snapshot) (env : MagicEnv) (v off : Nat),
      c.view = some v →
      ho.dataOffsetForAddress v c.address = .ok (some off) →
      (updateMagicVariableValues ho c env).current_raw_offset = .hexaddr off) ∧
    (∀ (ho : HostOracle) (c : Snapshot) (env : MagicEnv) (v : Nat),
      c.view = some v →
      ho.dataOffsetForAddress v c.address = .ok none →
      (updateMagicVariableValues ho c env).current_raw_offset = .hexaddr 0) ∧
    (∀ (ho : HostOracle) (c : Snapshot) (env : MagicEnv),
      c.view = none →
      (updateMagicVariableValues ho c env).current_raw_offset = .hexaddr 0 ∧
      (updateMagicVariableValues ho c env).current_symbol = .nilB ∧
      (updateMagicVariableValues ho c env).current_symbols = .symbolList [] ∧
      (updateMagicVariableValues ho c env).current_comment = .strB "") ∧
    (∀ (ho : HostOracle) (c : Snapshot) (env : MagicEnv) (v : Nat)
       (r1 : Option Nat) (ss : List Nat),
      c.view = some v →
      ho.dataOffsetForAddress v c.address = .ok r1 →
      ho.sectionsAt v c.address = .ok ss →
      ho.symbolAt v c.address = .ok none →
      (updateMagicVariableValues ho c env).current_symbol = .nilB ∧
      (updateMagicVariableValues ho c env).current_symbols = .symbolList []) ∧
    (∀ (ho : HostOracle) (c : Snapshot) (env : MagicEnv) (v : Nat)
       (r1 : Option Nat) (ss : List Nat) (symr : Option Nat) (cm : String),
      c.view = some v →
      ho.dataOffsetForAddress v c.address = .ok r1 →
      ho.sectionsAt v c.address = .ok ss →
      ho.symbolAt v c.address = .ok symr →
      ho.commentAt v c.address = .ok cm →
      (updateMagicVariableValues ho c env).current_comment = .strB cm) := by
  refine ⟨?_, ?_, ?_, ?_, ?_⟩
  · intro ho c env v off hv h1
    exact umvv_raw_offset ho c env v (some off) hv h1
  · intro ho c env v hv h1
    exact umvv_raw_offset ho c env v none hv h1
  · intro ho c env hv
    obtain ⟨a1, a2, a3, a4, a5⟩ := umvv_view_none ho c env hv
    exact ⟨a1, a3, a4, a5⟩
  · intro ho c env v r1 ss hv h1 h2 h3
    exact umvv_symbol_fields ho c env v r1 ss none hv h1 h2 h3
  · intro ho c env v r1 ss symr cm hv h1 h2 h3 h4
    exact umvv_comment_field ho c env v r1 ss symr cm hv h1 h2 h3 h4

/-- Host oracle whose view maps the current address to file offset
0x80. -/
def hoMapped : HostOracle :=
  { hoTriv with dataOffsetForAddress := fun _ _ => .ok (some 0x80) }

/-- Snapshot with no bound view. -/
def snapNone : Snapshot :=
  { view := none, func := none, block := none,
    address := 0x401000, selBegin := 0, selEnd := 0 }

/-- Witness for magic_absent_representation_contract on concrete host
oracles with and without a mapping, a symbol and a view. -/
theorem magic_absent_representation_contract_witness :
    (updateMagicVariableValues hoMapped snapEx emptyEnv).current_raw_offset =
      .hexaddr 0x80 ∧
    (updateMagicVariableValues hoTriv snapEx emptyEnv).current_raw_offset =
      .hexaddr 0 ∧
    ((updateMagicVariableValues hoTriv snapNone envStale).current_raw_offset =
       .hexaddr 0 ∧
     (updateMagicVariableValues hoTriv snapNone envStale).current_symbol = .nilB ∧
     (updateMagicVariableValues hoTriv snapNone envStale).current_symbols =
       .symbolList [] ∧
     (updateMagicVariableValues hoTriv snapNone envStale).current_comment =
       .strB "") ∧
    ((updateMagicVariableValues hoTriv snapEx envStale).current_symbol = .nilB ∧
     (updateMagicVariableValues hoTriv snapEx envStale).current_symbols =
       .symbolList []) ∧
    (updateMagicVariableValues hoTriv snapEx envStale).current_comment =
      .strB "" := by
  obtain ⟨a1, a2, a3, a4, a5⟩ := magic_absent_representation_contract
  exact ⟨a1 hoMapped snapEx emptyEnv 1 0x80 rfl rfl,
    a2 hoTriv snapEx emptyEnv 1 rfl rfl,
    a3 hoTriv snapNone envStale rfl,
    a4 hoTriv snapEx envStale 1 none [] rfl rfl rfl rfl,
    a5 hoTriv snapEx envStale 1 none [] none "" rfl rfl rfl rfl rfl⟩

/-- C9: when interpreter-state creation fails at session open, exactly
one error message is surfaced through the error channel, the session
keeps no Lua state, and the session is inert: every subsequent
ExecuteScriptInput or ExecuteScriptInputFromFilename call on it returns
InvalidScriptInput with only the not-initialized error, never touching
the interpreter or host oracles (the right-hand sides below do not
depend on the interpreter oracle, so no script is executed). -/
theorem init_failure_session_inert (ho : HostOracle) (s : InstanceState) :
    (initializeLuaState ho false s).2 =
      [Event.errorEv "Failed to create Lua state"] ∧
    (initializeLuaState ho false s).1.luaState = false ∧
    (∀ (o : LuaOracle) (input : String),
      executeScriptInput o ho (initializeLuaState ho false s).1 input =
        { result := .invalidScriptInput
          events := [.errorEv "Lua state not initialized"]
          state := (initializeLuaState ho false s).1 }) ∧
    (∀ (o : LuaOracle) (fn : String),
      executeScriptInputFromFilename o ho (initializeLuaState ho false s).1 fn =
        { result := .invalidScriptInput
          events := [.errorEv "Lua state not initialized"]
          state := (initializeLuaState ho false s).1 }) :=
  ⟨rfl, rfl, fun _ _ => rfl, fun _ _ => rfl⟩

/-- Session with a bound view and the selection [4, 8). -/
def sSel : InstanceState :=
  { sReady with live := { view := some 1, func := none, block := none,
                          address := 0, selBegin := 4, selEnd := 8 } }

/-- Session with a bound view and an empty selection [5, 5). -/
def sSelEmpty : InstanceState :=
  { sReady with live := { view := some 1, func := none, block := none,
                          address := 0, selBegin := 5, selEnd := 5 } }

/-- C10: get_selected_data returns the empty string when no view is
bound or when selection-begin is not below selection-end, and otherwise
the bytes ReadBuffer returns for the half-open range from
selection-begin of length selection-end minus selection-begin. -/
theorem get_selected_data_spec :
    (∀ (ho : HostOracle) (s : InstanceState), s.live.view = none →
      getSelectedData ho s = []) ∧
    (∀ (ho : HostOracle) (s : InstanceState) (v : Nat), s.live.view = some v →
      s.live.selEnd ≤ s.live.selBegin → getSelectedData ho s = []) ∧
    (∀ (ho : HostOracle) (s : InstanceState) (v : Nat), s.live.view = some v →
      s.live.selBegin < s.live.selEnd → s.live.selEnd < u64 →
      getSelectedData ho s =
        ho.readBuffer v s.live.selBegin (s.live.selEnd - s.live.selBegin)) := by
  refine ⟨?_, ?_, ?_⟩
  · intro ho s hv
    simp [getSelectedData, hv]
  · intro ho s v hv hle
    simp [getSelectedData, hv, hle]
  · intro ho s v hv hlt hbound
    have hge : ¬ (s.live.selBegin ≥ s.live.selEnd) := by omega
    have hsub := u64sub_eq_sub s.live.selEnd s.live.selBegin (by omega) hbound
    simp [getSelectedData, hv, hge, hsub]

/-- Witness for get_selected_data_spec on concrete sessions: no view,
empty selection, and the selection [4, 8). -/
theorem get_selected_data_spec_witness :
    getSelectedData hoTriv initialState = [] ∧
    getSelectedData hoTriv sSelEmpty = [] ∧
    getSelectedData hoTriv sSel = hoTriv.readBuffer 1 4 (8 - 4) := by
  obtain ⟨a1, a2, a3⟩ := get_selected_data_spec
  exact ⟨a1 hoTriv initialState rfl, a2 hoTriv sSelEmpty 1 rfl (by decide),
    a3 hoTriv sSel 1 rfl (by decide) (by decide)⟩

end BinjaLua
